import Mathlib

/-!
A shallow embedding of the POSIX backend of dtimer.c (timer_lib).

Clock readings (struct timespec values produced by clock_gettime) are
inputs to the embedded functions; the 64-bit unsigned tick_t is modelled
as a natural number reduced modulo 2^64; the double-precision deltatime_t
is modelled by the exact rationals.  The three process-wide globals
(timerlib_freq, timerlib_oofreq, last_mark_ticks) form an explicit state
record that the stateful operations take and return.
-/

/-- A struct timespec value as filled in by clock_gettime. -/
structure Timespec where
  tv_sec : Nat
  tv_nsec : Nat
deriving DecidableEq

/-- The process-wide mutable state of the library: timerlib_freq
(dtimer.c line 41), timerlib_oofreq (line 43), last_mark_ticks (line 44). -/
structure TimerState where
  timerlib_freq : Nat
  timerlib_oofreq : ℚ
  last_mark_ticks : Nat
deriving DecidableEq

/-- 2^64, the modulus of tick_t (uint64_t) arithmetic. -/
def U64 : Nat := 2 ^ 64

/-- Unsigned 64-bit subtraction a - b, wrapping modulo 2^64. -/
def u64sub (a b : Nat) : Nat := (a % U64 + (U64 - b % U64)) % U64

/-- The state given by the static initializers on the POSIX branch:
timerlib_freq = 1000000000ULL (line 41), timerlib_oofreq = 0 (line 43),
last_mark_ticks = 0 (line 44). -/
def initState : TimerState :=
  { timerlib_freq := 1000000000, timerlib_oofreq := 0, last_mark_ticks := 0 }

/-- timer_lib_initialize, POSIX branch (lines 55-64): clock_ok is true iff
the probing clock_gettime(CLOCK_MONOTONIC) call returned 0.  On failure the
function returns -1 before touching any global; on success it stores
timerlib_freq = 1000000000 and timerlib_oofreq = 1.0 / timerlib_freq and
returns 0. -/
def timer_lib_initialize (clock_ok : Bool) (s : TimerState) : Int × TimerState :=
  if clock_ok then
    (0, { s with timerlib_freq := 1000000000,
                 timerlib_oofreq := 1 / ((1000000000 : Nat) : ℚ) })
  else (-1, s)

/-- timer_lib_shutdown (lines 67-68): empty body, the state is untouched. -/
def timer_lib_shutdown (s : TimerState) : TimerState := s

/-- timer_current_in_ticks, POSIX branch (lines 85-87):
((uint64_t)ts.tv_sec * 1000000000ULL) + ts.tv_nsec in uint64 arithmetic. -/
def timer_current_in_ticks (ts : Timespec) : Nat :=
  (ts.tv_sec * 1000000000 + ts.tv_nsec) % U64

/-- timer_ticks_per_second (lines 92-94). -/
def timer_ticks_per_second (s : TimerState) : Nat := s.timerlib_freq

/-- timer_elapsed_ticks, POSIX branch (lines 115-122): reads a fresh
timespec ts, forms curclock, and returns curclock - t in uint64. -/
def timer_elapsed_ticks (t : Nat) (ts : Timespec) : Nat :=
  u64sub (timer_current_in_ticks ts) t

/-- timer_elapsed (lines 96-98): (double)timer_elapsed_ticks(t) * timerlib_oofreq. -/
def timer_elapsed (t : Nat) (ts : Timespec) (s : TimerState) : ℚ :=
  (timer_elapsed_ticks t ts : ℚ) * s.timerlib_oofreq

/-- timer_ticks_to_seconds (lines 129-131): (double)dt * timerlib_oofreq. -/
def timer_ticks_to_seconds (dt : Nat) (s : TimerState) : ℚ :=
  (dt : ℚ) * s.timerlib_oofreq

/-- timer_system_in_millisecond, POSIX branch (lines 158-160):
tv_sec * 1000 + tv_nsec / 1000000 in uint64 arithmetic. -/
def timer_system_in_millisecond (ts : Timespec) : Nat :=
  (ts.tv_sec * 1000 + ts.tv_nsec / 1000000) % U64

/-- timer_system_in_microsecond, POSIX branch (lines 181-183):
tv_sec * 1000000 + tv_nsec / 1000 in uint64 arithmetic. -/
def timer_system_in_microsecond (ts : Timespec) : Nat :=
  (ts.tv_sec * 1000000 + ts.tv_nsec / 1000) % U64

/-- timer_system_in_nanosecond, POSIX branch (lines 205-207): the code
returns ((uint64_t)ts.tv_sec * 1000000000ULL) only — tv_nsec is dropped. -/
def timer_system_in_nanosecond (ts : Timespec) : Nat :=
  (ts.tv_sec * 1000000000) % U64

/-- The observable outcome of one call to timer_elapsed_from_lastCall:
the returned seconds, the state after the call, the index of the next
unconsumed clock reading, and the number of assignments made to
last_mark_ticks during the call. -/
structure LastCallResult where
  sec : ℚ
  state : TimerState
  nextIdx : Nat
  writes : Nat
deriving DecidableEq

/-- timer_elapsed_from_lastCall (lines 211-219).  clock j is the timespec
produced by the j-th clock_gettime call made through timer_current_in_ticks;
i is the index of the first reading consumed by this call.  If
last_mark_ticks is 0 the if branch assigns it a fresh reading (one write);
then now is a fresh reading, sec = (double)(now - last_mark_ticks) /
(double)timerlib_freq in uint64 then double arithmetic, and last_mark_ticks
is assigned now (one more write). -/
def timer_elapsed_from_lastCall (clock : Nat → Timespec) (i : Nat)
    (s : TimerState) : LastCallResult :=
  let mark1 := if s.last_mark_ticks = 0 then timer_current_in_ticks (clock i)
               else s.last_mark_ticks
  let i1 := if s.last_mark_ticks = 0 then i + 1 else i
  let w1 := if s.last_mark_ticks = 0 then 1 else 0
  let now := timer_current_in_ticks (clock i1)
  { sec := (u64sub now mark1 : ℚ) / (s.timerlib_freq : ℚ)
    state := { s with last_mark_ticks := now }
    nextIdx := i1 + 1
    writes := w1 + 1 }

/-- Every tick reading is already reduced modulo 2^64. -/
theorem timer_current_in_ticks_lt (ts : Timespec) : timer_current_in_ticks ts < U64 :=
  Nat.mod_lt _ (by simp [U64])

/-- Unsigned 64-bit subtraction agrees with truncated subtraction when no
wraparound occurs. -/
theorem u64sub_eq_sub (a b : Nat) (ha : a < U64) (hb : b ≤ a) :
    u64sub a b = a - b := by
  have hb' : b < U64 := lt_of_le_of_lt hb ha
  unfold u64sub
  rw [Nat.mod_eq_of_lt ha, Nat.mod_eq_of_lt hb']
  have h1 : a + (U64 - b) = (a - b) + 1 * U64 := by omega
  rw [h1, Nat.add_mul_mod_self_right, Nat.mod_eq_of_lt (by omega)]

/-- Unsigned 64-bit subtraction wraps when the subtrahend exceeds the
minuend. -/
theorem u64sub_eq_wrap (a b : Nat) (ha : a < U64) (hb : b < U64) (h : a < b) :
    u64sub a b = U64 - (b - a) := by
  unfold u64sub
  rw [Nat.mod_eq_of_lt ha, Nat.mod_eq_of_lt hb]
  have h2 : a + (U64 - b) = U64 - (b - a) := by omega
  rw [h2]
  exact Nat.mod_eq_of_lt (by omega)

/-- C1: the POSIX timer_system_in_nanosecond is claimed to return
tv_sec * 10^9 + tv_nsec, but the code returns tv_sec * 10^9 only: at the
reading (tv_sec, tv_nsec) = (12, 345) it yields 12000000000, not the
claimed 12000000345. -/
theorem C1_nanosecond_drops_tv_nsec :
    timer_system_in_nanosecond { tv_sec := 12, tv_nsec := 345 } = 12000000000 ∧
    (12 * 1000000000 + 345 : Nat) ≠ 12000000000 := by
  constructor
  · norm_num [timer_system_in_nanosecond, U64]
  · norm_num

/-- C5: timer_elapsed_ticks(t) at a current reading ts equals
(now - t) modulo 2^64, where now is the tick value of ts: it is the exact
difference now - t when t ≤ now, and the wraparound value
2^64 - (t - now) rather than a negative number when now < t. -/
theorem C5_elapsed_ticks_mod_u64 (t : Nat) (ts : Timespec) (ht : t < U64) :
    timer_elapsed_ticks t ts = (timer_current_in_ticks ts + (U64 - t)) % U64 ∧
    (t ≤ timer_current_in_ticks ts →
      timer_elapsed_ticks t ts = timer_current_in_ticks ts - t) ∧
    (timer_current_in_ticks ts < t →
      timer_elapsed_ticks t ts = U64 - (t - timer_current_in_ticks ts)) := by
  have hnow := timer_current_in_ticks_lt ts
  refine ⟨?_, ?_, ?_⟩
  · unfold timer_elapsed_ticks u64sub
    rw [Nat.mod_eq_of_lt hnow, Nat.mod_eq_of_lt ht]
  · intro h
    exact u64sub_eq_sub _ _ hnow h
  · intro h
    exact u64sub_eq_wrap _ _ hnow ht h

/-- C5 witness: at t = 5 and the reading (0, 3), so now = 3 < t, the
result is the wraparound value 2^64 - 2. -/
theorem C5_elapsed_ticks_mod_u64_witness :
    timer_elapsed_ticks 5 { tv_sec := 0, tv_nsec := 3 } = U64 - 2 := by
  have h := (C5_elapsed_ticks_mod_u64 5 { tv_sec := 0, tv_nsec := 3 }
    (by norm_num [U64])).2.2 (by norm_num [timer_current_in_ticks, U64])
  rw [h]
  norm_num [timer_current_in_ticks, U64]

/-- C6: converting the tick delta of timer_elapsed_ticks with
timer_ticks_to_seconds gives exactly timer_elapsed, for the same starting
tick and the same current reading: both multiply the same delta by the
stored reciprocal. -/
theorem C6_roundtrip (t : Nat) (ts : Timespec) (s : TimerState) :
    timer_ticks_to_seconds (timer_elapsed_ticks t ts) s = timer_elapsed t ts s := rfl

/-- C7: after a successful timer_lib_initialize, one second's worth of
ticks converts to exactly one second: timer_ticks_to_seconds applied to
timer_ticks_per_second gives 1 (exact in the rational model of double). -/
theorem C7_one_second_roundtrip (s : TimerState) :
    timer_ticks_to_seconds
      (timer_ticks_per_second ( timer_lib_initialize true s).2)
      ( timer_lib_initialize true s).2 = 1 := by
  simp [ timer_lib_initialize, timer_ticks_per_second, timer_ticks_to_seconds]

/-- C8: timer_lib_shutdown has no side effects: timerlib_freq,
timerlib_oofreq and last_mark_ticks are all unchanged. -/
theorem C8_shutdown_no_effect (s : TimerState) :
    ( timer_lib_shutdown s).timerlib_freq = s.timerlib_freq ∧
    ( timer_lib_shutdown s).timerlib_oofreq = s.timerlib_oofreq ∧
    ( timer_lib_shutdown s).last_mark_ticks = s.last_mark_ticks :=
  ⟨rfl, rfl, rfl⟩

/-- C9: in the static initial state (before any successful initialization)
timerlib_oofreq is 0, so timer_ticks_to_seconds and timer_elapsed return 0
for every input, while timer_ticks_per_second already returns the static
POSIX frequency 1000000000. -/
theorem C9_before_init_zero (dt t : Nat) (ts : Timespec) :
    initState.timerlib_oofreq = 0 ∧
    timer_ticks_to_seconds dt initState = 0 ∧
    timer_elapsed t ts initState = 0 ∧
    timer_ticks_per_second initState = 1000000000 := by
  refine ⟨rfl, ?_, ?_, rfl⟩ <;>
    simp [timer_ticks_to_seconds, timer_elapsed, initState]

/-- C2 counterexample: on a first call (last_mark_ticks = 0, the static
initial state) timer_elapsed_from_lastCall assigns last_mark_ticks twice
(once in the if branch, once at the end), so the mark is not written
exactly once during that call. -/
theorem C2_first_call_writes_twice :
    (timer_elapsed_from_lastCall (fun _ => { tv_sec := 1, tv_nsec := 0 }) 0
      initState).writes ≠ 1 := by
  decide

/-- C2 amended: last_mark_ticks is written exactly once per call to
timer_elapsed_from_lastCall when the mark is already set, and twice on a
call that finds the mark unset (lazy initialization plus the final store);
in either case its new value is ≥ its old value whenever the tick readings
taken during the call are ≥ the previous mark. -/
theorem C2_lastCall_write_discipline (clock : Nat → Timespec) (i : Nat)
    (s : TimerState) :
    (s.last_mark_ticks ≠ 0 →
      (timer_elapsed_from_lastCall clock i s).writes = 1) ∧
    (s.last_mark_ticks = 0 →
      (timer_elapsed_from_lastCall clock i s).writes = 2) ∧
    ((∀ j, s.last_mark_ticks ≤ timer_current_in_ticks (clock j)) →
      s.last_mark_ticks ≤
        (timer_elapsed_from_lastCall clock i s).state.last_mark_ticks) := by
  by_cases h : s.last_mark_ticks = 0
  · refine ⟨fun hc => absurd h hc, fun _ => ?_, fun hall => ?_⟩ <;>
      simp [timer_elapsed_from_lastCall, h]
  · refine ⟨fun _ => ?_, fun hc => absurd hc h, fun hall => ?_⟩
    · simp [timer_elapsed_from_lastCall, h]
    · simpa [timer_elapsed_from_lastCall, h] using hall i

/-- C2 witness: a call that finds the mark already set (here 3) performs
exactly one write. -/
theorem C2_lastCall_write_discipline_witness :
    (timer_elapsed_from_lastCall (fun _ => { tv_sec := 0, tv_nsec := 7 }) 0
      { timerlib_freq := 1000000000, timerlib_oofreq := 0,
        last_mark_ticks := 3 }).writes = 1 :=
  (C2_lastCall_write_discipline _ 0 _).1 (by norm_num)

/-- C3: when the mark is already set, timer_elapsed_from_lastCall returns
(now - mark) / timerlib_freq seconds for the current reading now and
stores now as the new mark; on a first call it records a fresh reading as
the mark and returns the seconds between the two consecutive readings
taken within that call. -/
theorem C3_lastCall_sec_and_mark (clock : Nat → Timespec) (i : Nat)
    (s : TimerState) :
    (s.last_mark_ticks ≠ 0 →
      (timer_elapsed_from_lastCall clock i s).state.last_mark_ticks =
        timer_current_in_ticks (clock i) ∧
      (s.last_mark_ticks ≤ timer_current_in_ticks (clock i) →
        (timer_elapsed_from_lastCall clock i s).sec =
          ((timer_current_in_ticks (clock i) : ℚ) - (s.last_mark_ticks : ℚ)) /
            (s.timerlib_freq : ℚ))) ∧
    (s.last_mark_ticks = 0 →
      (timer_elapsed_from_lastCall clock i s).state.last_mark_ticks =
        timer_current_in_ticks (clock (i + 1)) ∧
      (timer_current_in_ticks (clock i) ≤ timer_current_in_ticks (clock (i + 1)) →
        (timer_elapsed_from_lastCall clock i s).sec =
          ((timer_current_in_ticks (clock (i + 1)) : ℚ) -
            (timer_current_in_ticks (clock i) : ℚ)) / (s.timerlib_freq : ℚ))) := by
  constructor
  · intro h
    refine ⟨by simp [timer_elapsed_from_lastCall, h], fun hle => ?_⟩
    have hsub := u64sub_eq_sub _ _ (timer_current_in_ticks_lt (clock i)) hle
    simp only [timer_elapsed_from_lastCall, if_neg h]
    rw [hsub, Nat.cast_sub hle]
  · intro h
    refine ⟨by simp [timer_elapsed_from_lastCall, h], fun hle => ?_⟩
    have hsub := u64sub_eq_sub _ _ (timer_current_in_ticks_lt (clock (i + 1))) hle
    simp only [timer_elapsed_from_lastCall, if_pos h]
    rw [hsub, Nat.cast_sub hle]

/-- C3 witness: with the mark at 10^9 ticks and the current reading at
2·10^9 ticks, the call returns (2·10^9 - 10^9)/10^9 seconds and stores
2·10^9 as the new mark. -/
theorem C3_lastCall_sec_and_mark_witness :
    (timer_elapsed_from_lastCall (fun j => { tv_sec := j, tv_nsec := 0 }) 2
      { timerlib_freq := 1000000000, timerlib_oofreq := 1 / ((1000000000 : Nat) : ℚ),
        last_mark_ticks := 1000000000 }).state.last_mark_ticks =
      timer_current_in_ticks { tv_sec := 2, tv_nsec := 0 } ∧
    (timer_elapsed_from_lastCall (fun j => { tv_sec := j, tv_nsec := 0 }) 2
      { timerlib_freq := 1000000000, timerlib_oofreq := 1 / ((1000000000 : Nat) : ℚ),
        last_mark_ticks := 1000000000 }).sec =
      ((timer_current_in_ticks { tv_sec := 2, tv_nsec := 0 } : ℚ) -
        ((1000000000 : Nat) : ℚ)) / ((1000000000 : Nat) : ℚ) := by
  have h := (C3_lastCall_sec_and_mark (fun j => { tv_sec := j, tv_nsec := 0 }) 2
    { timerlib_freq := 1000000000, timerlib_oofreq := 1 / ((1000000000 : Nat) : ℚ),
      last_mark_ticks := 1000000000 }).1 (by norm_num)
  exact ⟨h.1, h.2 (by norm_num [timer_current_in_ticks, U64])⟩

/-- C4: timer_lib_initialize returns -1 exactly when the platform clock
probe fails; on failure the state is completely unchanged (so timerlib_freq
stays as it was and timerlib_oofreq stays 0 if it was 0); on success it
returns 0, sets the POSIX frequency 10^9 and stores
timerlib_oofreq = 1 / timerlib_freq. -/
theorem C4_init_semantics (ok : Bool) (s : TimerState) :
    (( timer_lib_initialize ok s).1 = -1 ↔ ok = false) ∧
    (ok = false → ( timer_lib_initialize ok s).2 = s) ∧
    (ok = true → ( timer_lib_initialize ok s).1 = 0 ∧
      ( timer_lib_initialize ok s).2.timerlib_freq = 1000000000 ∧
      ( timer_lib_initialize ok s).2.timerlib_oofreq =
        1 / (( timer_lib_initialize ok s).2.timerlib_freq : ℚ)) := by
  cases ok <;> simp [ timer_lib_initialize]

/-- C4 witness: from the static initial state, a failed probe returns the
state unchanged and a successful probe returns 0. -/
theorem C4_init_semantics_witness :
    ( timer_lib_initialize false initState).2 = initState ∧
    ( timer_lib_initialize true initState).1 = 0 :=
  ⟨(C4_init_semantics false initState).2.1 rfl,
   ((C4_init_semantics true initState).2.2 rfl).1⟩

/-- C10: after every call to timer_elapsed_from_lastCall the stored mark
equals the final tick reading taken during the call; if that reading is 0
the mark coincides with the never-called sentinel, so the next call again
takes the first-call branch (two writes) instead of measuring from the
previous call. -/
theorem C10_mark_is_final_reading (clock : Nat → Timespec) (i : Nat)
    (s : TimerState) :
    ((timer_elapsed_from_lastCall clock i s).state.last_mark_ticks =
      timer_current_in_ticks (clock (if s.last_mark_ticks = 0 then i + 1 else i))) ∧
    ((timer_elapsed_from_lastCall clock i s).state.last_mark_ticks = 0 →
      (timer_elapsed_from_lastCall clock
        (timer_elapsed_from_lastCall clock i s).nextIdx
        (timer_elapsed_from_lastCall clock i s).state).writes = 2) := by
  constructor
  · by_cases h : s.last_mark_ticks = 0 <;> simp [timer_elapsed_from_lastCall, h]
  · intro h0
    simp only [timer_elapsed_from_lastCall] at h0 ⊢
    simp [h0]

/-- C10 witness: with a clock stuck at reading (0, 0) the first call from
the initial state leaves the mark at 0, and the following call again takes
the first-call branch. -/
theorem C10_mark_is_final_reading_witness :
    (timer_elapsed_from_lastCall (fun _ => { tv_sec := 0, tv_nsec := 0 })
      (timer_elapsed_from_lastCall (fun _ => { tv_sec := 0, tv_nsec := 0 }) 0
        initState).nextIdx
      (timer_elapsed_from_lastCall (fun _ => { tv_sec := 0, tv_nsec := 0 }) 0
        initState).state).writes = 2 :=
  (C10_mark_is_final_reading (fun _ => { tv_sec := 0, tv_nsec := 0 }) 0
    initState).2 (by decide)
